import Mathlib

/-!
Verification of the ACARS flight-tracking backend.

This file is a shallow embedding of the tracking core of the repository:
the fully featured tracker found in `src/unnamed/part_000` (the
`live_flights.js` document spanning its lines 119-956).  That copy is the
one the specification's §4.2 describes step by step: flight-id-priority
match resolution, the AGL landing heuristic, landing checked before the
timeout, and the sighting-keyed backoff schedule.

Modelling conventions:
* JavaScript millisecond timestamps (`Date.now()`) are `Int`.
* JavaScript `null`/`undefined` string fields are `Option String`; a falsy
  string (`null`, `undefined`, or `""`) collapses to `none` exactly where
  the source tests truthiness.
* Latitudes, longitudes, altitudes, speeds and distances are `Rat`
  (exact stand-in for the source's IEEE doubles; the trigonometric
  haversine formula itself is modelled separately over `ℝ`).
* Network fetches (`getFlightsForSession`, `getFlightRoute`) and the
  trigonometric distance used by the airport proximity scan are inputs to
  the poll step (`PollEnv`), matching the spec's collaborator boundaries;
  a `none` route result models a thrown fetch error that the source
  catches and falls through from.
* Outbound webhook posts (`notifyCallback`) are modelled as an emitted
  list of `CallbackEvent`s.
-/

/-- Tracker lifecycle status, from the source's status strings
`searching`, `tracking`, `landed`, `not_found`, `stopped`. -/
inductive TrackStatus where
  | searching
  | tracking
  | landed
  | notFound
  | stopped
  deriving DecidableEq, Repr

/-- Terminal statuses: `landed`, `not_found`, `stopped`. -/
def TrackStatus.isTerminal : TrackStatus → Bool
  | .landed => true
  | .notFound => true
  | .stopped => true
  | _ => false

/-- Kinds of history events the tracker appends (`created`, `online`,
`offline`, `landed`, `stopped`, `delayed_by_test`). -/
inductive EventKind where
  | created
  | online
  | offline
  | landed
  | stopped
  | delayedByTest
  deriving DecidableEq, Repr

/-- One entry of a tracker's append-only `history` array.  The `airport`
field is only populated on `landed` events. -/
structure HistoryEvent where
  event : EventKind
  timestamp : Int
  airport : Option String := none
  deriving DecidableEq, Repr

/-- A live-flight entry as consumed by the poll loop: the fields of the
raw API object that the matching and scheduling logic reads
(`flightId`, `username`, `pilotState`). -/
structure Flight where
  flightId : Option String
  username : Option String
  pilotState : Option Int
  deriving DecidableEq, Repr

/-- The remembered flight identity (`t.lastKnownFlight`): flight id plus
session id, retained after the flight vanishes from the live list. -/
structure LastKnown where
  flightId : Option String
  sessionId : String
  deriving DecidableEq, Repr

/-- One simplified route point, as produced by `simplifyFlightRoute`:
`{lat, lon, altitude, groundSpeed}` (the fields the landing heuristic
reads). -/
structure RoutePoint where
  lat : Rat
  lon : Rat
  altitude : Rat
  groundSpeed : Rat
  deriving DecidableEq, Repr

/-- A normalized airport record (`normalizeAirport`): code, name,
coordinate and field elevation.  Null elevation is normalized to 0 by the
loader, so `elevation_ft` is total here. -/
structure Airport where
  icao : String
  name : String
  lat : Rat
  lon : Rat
  elevation_ft : Rat
  deriving DecidableEq, Repr

/-- A tracking task, with the fields of the source's tracker object that
carry behaviour. -/
structure Tracker where
  id : String
  username : String
  server : String
  callbackUrl : Option String
  status : TrackStatus
  startedAt : Int
  lastPolledAt : Int
  lastSeenAt : Int
  attempts : Nat
  flight : Option Flight
  lastKnownFlight : Option LastKnown
  timeoutAt : Int
  nextPollAt : Int
  history : List HistoryEvent
  deriving DecidableEq, Repr

/-- An outbound webhook notification, keyed by the `reason` field of the
posted payload (creation acknowledgments carry no reason). -/
inductive CallbackEvent where
  | created
  | userOnline (flight : Flight)
  | flightLanded (durationMs : Int) (airportIcao : String) (distanceKm : Rat)
      (lastPosition : RoutePoint)
  | timeout
  | userOffline
  | stoppedByRequest
  deriving DecidableEq, Repr

/-! ### Configuration constants (source defaults) -/

/-- `POLL_MS` default: 30 s. -/
def POLL_MS : Int := 30000

/-- `BACKGROUND_POLL_MS` default: 15 min. -/
def BACKGROUND_POLL_MS : Int := 15 * 60 * 1000

/-- `SEARCH_TIMEOUT_MS` default: 48 h. -/
def SEARCH_TIMEOUT_MS : Int := 48 * 60 * 60 * 1000

/-- `LANDED_ALTITUDE_AGL_FT`: max altitude above ground level. -/
def LANDED_ALTITUDE_AGL_FT : Rat := 1000

/-- `LANDED_SPEED_KT`: max ground speed. -/
def LANDED_SPEED_KT : Rat := 40

/-- `LANDED_PROXIMITY_KM`: max distance from an airport center. -/
def LANDED_PROXIMITY_KM : Rat := 10

/-- `DEFAULT_IF_SERVER` default. -/
def DEFAULT_IF_SERVER : String := "Expert Server"

/-- The fixed delay applied by the `/track/:id/delay` endpoint (5 min). -/
def DELAY_MS : Int := 5 * 60 * 1000

/-! ### JavaScript string helpers

`trim()` and `toLowerCase()` are modelled directly on the character
list so that concrete instances reduce inside the kernel. -/

/-- JS `s.trim()`: strip leading and trailing whitespace. -/
def String.jsTrim (s : String) : String :=
  ⟨((s.data.dropWhile Char.isWhitespace).reverse.dropWhile Char.isWhitespace).reverse⟩

/-- JS `s.toLowerCase()` (ASCII case mapping). -/
def String.jsLower (s : String) : String :=
  ⟨s.data.map Char.toLower⟩

/-! ### JavaScript-truthiness helpers -/

/-- JS truthiness of a nullable string: `null`/`undefined`/`""` are falsy. -/
def jsTruthy : Option String → Bool
  | none => false
  | some s => s ≠ ""

/-- `a || b` on a nullable string with a string default. -/
def jsOrDefault (o : Option String) (d : String) : String :=
  match o with
  | none => d
  | some "" => d
  | some s => s

/-- `x || null` normalization: a falsy string becomes `none`. -/
def jsStrOrNull (o : Option String) : Option String :=
  match o with
  | some "" => none
  | x => x

/-- `hay.includes(needle)` on strings. -/
def strIncludes (hay needle : String) : Bool :=
  needle.isEmpty || (hay.splitOn needle).length ≥ 2

/-! ### Sessions (`pickSessionIdByName`) -/

/-- A session row as produced by `getSessions` (`{id, name}`); the
source's `null` id/name are modelled as `""`. -/
structure Session where
  id : String
  name : String
  deriving DecidableEq, Repr

/-- The alias table of `pickSessionIdByName`, in its iteration order. -/
def sessionAliases : List (String × List String) :=
  [("expert", ["expert server", "expert"]),
   ("training", ["training server", "training"]),
   ("casual", ["casual server", "casual"])]

/-- One iteration of the alias `for` loop of `pickSessionIdByName`: once
a hit is found it is kept; otherwise, when the wanted name is one of the
alias keys, look up the first session whose name contains the alias. -/
def aliasStep (sessions : List Session) (want : String)
    (acc : Option String) (kv : String × List String) : Option String :=
  match acc with
  | some r => some r
  | none =>
    if kv.2.contains want then
      match sessions.find? (fun s => strIncludes s.name.jsLower kv.1) with
      | some s => some s.id
      | none => none
    else none

/-- `pickSessionIdByName(sessions, desiredName)`: empty list gives null;
otherwise exact case-insensitive name match, then substring match, then
the alias table, then the first session's id. -/
def pickSessionIdByName (sessions : List Session) (desiredName : String) :
    Option String :=
  if sessions.isEmpty then none
  else
    let want := desiredName.jsTrim.jsLower
    match sessions.find? (fun s => s.name.jsLower == want) with
    | some s => some s.id
    | none =>
      match sessions.find? (fun s => strIncludes s.name.jsLower want) with
      | some s => some s.id
      | none =>
        match sessionAliases.foldl (aliasStep sessions want) none with
        | some r => some r
        | none => sessions.head?.map (·.id)

/-! ### Tracker registry: `addTrackers` item step, stop, delay -/

/-- The duplicate search of `addTrackers`: first tracker with the same
lowercased username and server in a non-terminal (`searching` or
`tracking`) state. -/
def findExistingActive (reg : List Tracker) (username server : String) :
    Option Tracker :=
  reg.find? (fun t =>
    t.username.jsLower == username.jsLower &&
    t.server.jsLower == server.jsLower &&
    (t.status == .searching || t.status == .tracking))

/-- The fresh tracker literal created by `addTrackers`. -/
def mkNewTracker (now : Int) (id username server : String)
    (callbackUrl : Option String) : Tracker :=
  { id := id
    username := username
    server := server
    callbackUrl := callbackUrl
    status := .searching
    startedAt := now
    lastPolledAt := 0
    lastSeenAt := 0
    attempts := 0
    flight := none
    lastKnownFlight := none
    timeoutAt := now + SEARCH_TIMEOUT_MS
    nextPollAt := now
    history := [{ event := .created, timestamp := now }] }

/-- Result of processing one item of an `addTrackers` batch. -/
structure AddResult where
  registry : List Tracker
  tracker : Option Tracker
  callbacks : List CallbackEvent
  deriving Repr

/-- The resolved callback URL of an `addTrackers` item:
`(item.callbackUrl || DEFAULT_CALLBACK_URL || '').trim()` stored as
`callbackUrl || null` (the default callback URL configuration defaults
to the empty string). -/
def resolvedCallback (callbackRaw : Option String) : Option String :=
  if (callbackRaw.getD "").jsTrim = "" then none else some ((callbackRaw.getD "").jsTrim)

/-- The body of the `addTrackers` loop for one `{username, server,
callbackUrl}` item: trim and validate the username (skip when empty),
resolve server and callback defaults, dedup against a non-terminal
tracker for the same pair, otherwise create a fresh `searching` tracker
and fire the creation acknowledgment.  `newIdVal` stands for `newId()`. -/
def addTrackerItem (now : Int) (newIdVal : String) (reg : List Tracker)
    (usernameRaw serverRaw callbackRaw : Option String) : AddResult :=
  if (usernameRaw.getD "").jsTrim = "" then ⟨reg, none, []⟩
  else
    match findExistingActive reg ((usernameRaw.getD "").jsTrim)
        ((jsOrDefault serverRaw DEFAULT_IF_SERVER).jsTrim) with
    | some existing => ⟨reg, some existing, []⟩
    | none =>
      ⟨reg ++ [mkNewTracker now newIdVal ((usernameRaw.getD "").jsTrim)
          ((jsOrDefault serverRaw DEFAULT_IF_SERVER).jsTrim) (resolvedCallback callbackRaw)],
       some (mkNewTracker now newIdVal ((usernameRaw.getD "").jsTrim)
          ((jsOrDefault serverRaw DEFAULT_IF_SERVER).jsTrim) (resolvedCallback callbackRaw)),
       [.created]⟩

/-- The `/track/:id/stop` endpoint's mutation: set status to `stopped`,
append a `stopped` history event, notify `stopped_by_request`. -/
def stopTracker (now : Int) (t : Tracker) : Tracker × List CallbackEvent :=
  ({ t with
      status := .stopped
      history := t.history ++ [{ event := .stopped, timestamp := now }] },
   [.stoppedByRequest])

/-- The `/track/:id/delay` endpoint's mutation: set `nextPollAt` to five
minutes from now and append a `delayed_by_test` event. -/
def delayTracker (now : Int) (t : Tracker) : Tracker :=
  { t with
      nextPollAt := now + DELAY_MS
      history := t.history ++ [{ event := .delayedByTest, timestamp := now }] }

/-! ### Poll step (`pollOnce` per-tracker processing) -/

/-- `simplifyFlight` restricted to the fields this model carries: falsy
`flightId`/`username` normalize to null, `pilotState` is kept when it is
a number. -/
def simplifyFlight (f : Flight) : Flight :=
  { flightId := jsStrOrNull f.flightId
    username := jsStrOrNull f.username
    pilotState := f.pilotState }

/-- The `byFlightId` index lookup: the map is populated with every flight
whose raw `flightId` is truthy, later entries overwriting earlier ones,
so a lookup returns the last such flight. -/
def byFlightIdGet (flights : List Flight) (fid : String) : Option Flight :=
  (flights.filter (fun f => jsTruthy f.flightId && f.flightId == some fid)).getLast?

/-- The `byUsername` index lookup: flights whose lowercased username
equals the (non-empty) key, in list order. -/
def byUsernameList (flights : List Flight) (u : String) : List Flight :=
  if u = "" then []
  else flights.filter (fun f => (f.username.getD "").jsLower == u)

/-- The truthiness test `t.lastKnownFlight?.flightId` used to gate the
flight-id index lookup and the landing route fetch. -/
def lastKnownTruthyFid (t : Tracker) : Option String :=
  match t.lastKnownFlight with
  | none => none
  | some lkf =>
    match lkf.flightId with
    | none => none
    | some fid => if fid = "" then none else some fid

/-- The JS comparison `t.lastKnownFlight?.flightId === found.flightId`:
`undefined` (no remembered flight) compares unequal to both `null` and
any string, `null === null` holds. -/
def jsSameFlightId (lkf : Option LastKnown) (foundId : Option String) : Bool :=
  match lkf with
  | none => false
  | some l => l.flightId == foundId

/-- Match resolution of `pollOnce`: when `tracking` with a truthy
remembered flight id, prefer the `byFlightId` index; otherwise (and when
that lookup misses) fall back to the first live flight with the
tracker's lowercased username. -/
def resolveMatch (t : Tracker) (flights : List Flight) : Option Flight :=
  let m1 : Option Flight :=
    if t.status == .tracking then
      match lastKnownTruthyFid t with
      | some fid => byFlightIdGet flights fid
      | none => none
    else none
  match m1 with
  | some f => some f
  | none =>
    if t.status == .searching || t.status == .tracking then
      (byUsernameList flights t.username.jsLower).head?
    else none

/-- `findNearestAirport`, parametrized by the distance function (the
trigonometric `getDistanceKm` in the source): linear scan keeping the
strictly closer airport; `none` models the `{airport: null,
distanceKm: Infinity}` result for an empty airport list. -/
def findNearestAirport (distFn : Rat → Rat → Rat → Rat → Rat)
    (airports : List Airport) (lat lon : Rat) : Option (Airport × Rat) :=
  airports.foldl
    (fun best a =>
      let d := distFn lat lon a.lat a.lon
      match best with
      | none => some (a, d)
      | some (b, m) => if d < m then some (a, d) else some (b, m))
    none

/-- The per-tracker inputs of one poll: the resolved session, the live
flight list fetched for the tracker's server group, the outcome of the
route fetch for the tracker's remembered flight (`none` models a thrown
fetch error), the airport dataset, and the collaborator distance
function used by the proximity scan. -/
structure PollEnv where
  sessionId : String
  flights : List Flight
  routeResult : Option (List RoutePoint)
  airports : List Airport
  distFn : Rat → Rat → Rat → Rat → Rat

/-- The landing determination of the no-match branch: requires a truthy
remembered flight id, a successfully fetched non-empty route, a nearest
airport, and the three heuristics on the route's last point - altitude
above the airport's elevation below `LANDED_ALTITUDE_AGL_FT`, ground
speed below `LANDED_SPEED_KT`, distance below `LANDED_PROXIMITY_KM`.
Returns the last point, the airport, and its distance on success. -/
def landingCheck (env : PollEnv) (t : Tracker) :
    Option (RoutePoint × Airport × Rat) :=
  match lastKnownTruthyFid t with
  | none => none
  | some _ =>
    match env.routeResult with
    | none => none
    | some route =>
      match route.getLast? with
      | none => none
      | some lastPoint =>
        match findNearestAirport env.distFn env.airports lastPoint.lat lastPoint.lon with
        | none => none
        | some (a, dkm) =>
          if lastPoint.altitude - a.elevation_ft < LANDED_ALTITUDE_AGL_FT ∧
             lastPoint.groundSpeed < LANDED_SPEED_KT ∧
             dkm < LANDED_PROXIMITY_KM then
            some (lastPoint, a, dkm)
          else none

/-- The flight-duration computation of the landed branch: `now` minus
the timestamp of the most recent `online` event in the history (`0`
when there is none). -/
def landedDuration (now : Int) (hist : List HistoryEvent) : Int :=
  match hist.reverse.find? (fun h => h.event == .online) with
  | some e => now - e.timestamp
  | none => 0

/-- The per-tracker body of `pollOnce` (src/unnamed/part_000 lines
589-730).  Increment `attempts`, stamp `lastPolledAt`, resolve a match;
on a match append `online` when not already tracking that exact flight
id, lock on and schedule the next poll (background interval when
`pilotState === 3`); on no match try the landing determination, then the
timeout, then the offline/backoff path.  Returns the updated tracker and
the webhook events fired for it. -/
def pollTracker (now : Int) (env : PollEnv) (t : Tracker) :
    Tracker × List CallbackEvent :=
  let t := { t with attempts := t.attempts + 1, lastPolledAt := now }
  match resolveMatch t env.flights with
  | some m =>
    let found := simplifyFlight m
    let isNewOnline :=
      !(t.status == .tracking && jsSameFlightId t.lastKnownFlight found.flightId)
    let hist := if isNewOnline then
        t.history ++ [{ event := .online, timestamp := now }]
      else t.history
    let cbs : List CallbackEvent := if isNewOnline then [.userOnline found] else []
    let next := now +
      (if found.pilotState == some 3 then BACKGROUND_POLL_MS else POLL_MS)
    ({ t with
        status := .tracking
        lastSeenAt := now
        flight := some found
        lastKnownFlight := some ⟨found.flightId, env.sessionId⟩
        nextPollAt := next
        history := hist },
     cbs)
  | none =>
    match landingCheck env t with
    | some (lastPoint, a, dkm) =>
      let hist := t.history ++ [{ event := .landed, timestamp := now, airport := some a.icao }]
      let dur := landedDuration now hist
      ({ t with status := .landed, history := hist },
       [.flightLanded dur a.icao dkm lastPoint])
    | none =>
      if now ≥ t.timeoutAt then
        ({ t with status := .notFound }, [.timeout])
      else
        let hist := if t.status == .tracking then
            t.history ++ [{ event := .offline, timestamp := now }]
          else t.history
        let cbs : List CallbackEvent :=
          if t.status == .tracking then [.userOffline] else []
        let seenRef := if t.lastSeenAt == 0 then t.startedAt else t.lastSeenAt
        let timeSinceSeen := now - seenRef
        let nextInterval : Int :=
          if timeSinceSeen < 15 * 60 * 1000 then 2 * 60 * 1000
          else if timeSinceSeen < 6 * 60 * 60 * 1000 then 15 * 60 * 1000
          else 60 * 60 * 1000
        ({ t with
            status := .searching
            flight := none
            history := hist
            nextPollAt := now + nextInterval },
         cbs)

/-- The due-tracker filter of `pollOnce`: non-terminal status and
`now >= t.nextPollAt`. -/
def dueForPoll (now : Int) (t : Tracker) : Bool :=
  (t.status == .searching || t.status == .tracking) &&
  decide (t.nextPollAt ≤ now)

/-- The registry-level effect of one `pollOnce` tick.  `envFor` supplies
each due tracker's per-group inputs; `none` models a group skipped this
tick (unresolved session name or a failed flight-list fetch), which
leaves its trackers untouched.  Trackers that are not due are not
processed. -/
def pollOnceStep (now : Int) (envFor : Tracker → Option PollEnv)
    (reg : List Tracker) : List Tracker :=
  reg.map (fun t =>
    if dueForPoll now t then
      match envFor t with
      | some env => (pollTracker now env t).1
      | none => t
    else t)

/-! ### Haversine distance (`getDistanceKm`)

The source computes distances with IEEE doubles; the formula is modelled
over `ℝ`.  `jsAtan2` is `Math.atan2`. -/

/-- `Math.atan2(y, x)` over the reals (the JS convention, with
`atan2(0, 0) = 0`). -/
noncomputable def jsAtan2 (y x : ℝ) : ℝ :=
  if 0 < x then Real.arctan (y / x)
  else if x < 0 then
    (if 0 ≤ y then Real.arctan (y / x) + Real.pi
     else Real.arctan (y / x) - Real.pi)
  else if 0 < y then Real.pi / 2
  else if y < 0 then -(Real.pi / 2)
  else 0

/-- The degree-to-radian helper `toRad` of `getDistanceKm`. -/
noncomputable def toRad (v : ℝ) : ℝ := v * Real.pi / 180

/-- The intermediate `a` of the haversine formula:
`sin²(dLat/2) + cos(lat1)·cos(lat2)·sin²(dLon/2)`. -/
noncomputable def haversineA (lat1 lon1 lat2 lon2 : ℝ) : ℝ :=
  Real.sin (toRad (lat2 - lat1) / 2) ^ 2 +
    Real.cos (toRad lat1) * Real.cos (toRad lat2) *
      Real.sin (toRad (lon2 - lon1) / 2) ^ 2

/-- `getDistanceKm(lat1, lon1, lat2, lon2)`: haversine great-circle
distance in kilometers over a spherical Earth of radius 6371 km,
`R * 2 * atan2(√a, √(1−a))`. -/
noncomputable def getDistanceKm (lat1 lon1 lat2 lon2 : ℝ) : ℝ :=
  6371 * (2 * jsAtan2 (Real.sqrt (haversineA lat1 lon1 lat2 lon2))
    (Real.sqrt (1 - haversineA lat1 lon1 lat2 lon2)))

theorem jsAtan2_zero_one : jsAtan2 0 1 = 0 := by
  simp [jsAtan2]

theorem haversineA_self (lat lon : ℝ) : haversineA lat lon lat lon = 0 := by
  simp [haversineA, toRad]

theorem haversineA_symm (lat1 lon1 lat2 lon2 : ℝ) :
    haversineA lat2 lon2 lat1 lon1 = haversineA lat1 lon1 lat2 lon2 := by
  have h : ∀ x y : ℝ, Real.sin (toRad (x - y) / 2) ^ 2
      = Real.sin (toRad (y - x) / 2) ^ 2 := by
    intro x y
    rw [show toRad (x - y) / 2 = -(toRad (y - x) / 2) by
      simp [toRad]; ring, Real.sin_neg, neg_sq]
  unfold haversineA
  rw [h lat1 lat2, h lon1 lon2, mul_comm (Real.cos (toRad lat2)) (Real.cos (toRad lat1))]

/-- C8: the haversine distance of a coordinate to itself is 0, and the
distance function is symmetric in its two coordinates. -/
theorem getDistanceKm_self_and_symm (lat1 lon1 lat2 lon2 : ℝ) :
    getDistanceKm lat1 lon1 lat1 lon1 = 0 ∧
    getDistanceKm lat1 lon1 lat2 lon2 = getDistanceKm lat2 lon2 lat1 lon1 := by
  constructor
  · rw [getDistanceKm, haversineA_self]
    norm_num [jsAtan2_zero_one]
  · rw [getDistanceKm, getDistanceKm, haversineA_symm]

/-! ### C10: session resolution is total on non-empty session lists -/

theorem aliasFold_mem (sessions : List Session) (want : String)
    (al : List (String × List String)) (acc : Option String) (r : String)
    (h : al.foldl (aliasStep sessions want) acc = some r) :
    acc = some r ∨ ∃ s ∈ sessions, r = s.id := by
  induction al generalizing acc with
  | nil => exact Or.inl h
  | cons hd tl ih =>
    rw [List.foldl_cons] at h
    rcases ih _ h with hstep | hmem
    · cases hacc : acc with
      | some v => rw [hacc] at hstep; exact Or.inl hstep
      | none =>
        rw [hacc] at hstep
        unfold aliasStep at hstep
        right
        by_cases hc : hd.2.contains want
        · rw [if_pos hc] at hstep
          cases hfind : sessions.find? (fun s => strIncludes s.name.jsLower hd.1) with
          | some s =>
            rw [hfind] at hstep
            exact ⟨s, List.mem_of_find?_eq_some hfind,
              by injection hstep with h'; exact h'.symm⟩
          | none => rw [hfind] at hstep; exact absurd hstep (by simp)
        · rw [if_neg hc] at hstep
          exact absurd hstep (by simp)
    · exact Or.inr hmem

/-- C10: `pickSessionIdByName` returns null exactly on the empty list:
it yields `none` for `[]`, and for every non-empty session list whose
entries all have non-empty ids and names it returns the id of some
session of the list, whatever the desired name (exact, substring and
alias misses fall back to the first session). -/
theorem pickSessionIdByName_total (sessions : List Session) (desiredName : String)
    (hne : sessions ≠ [])
    (hok : ∀ s ∈ sessions, s.id ≠ "" ∧ s.name ≠ "") :
    pickSessionIdByName [] desiredName = none ∧
    ∃ s ∈ sessions, pickSessionIdByName sessions desiredName = some s.id := by
  have hne' : sessions.isEmpty = false := by simpa using hne
  refine ⟨rfl, ?_⟩
  cases hexact : sessions.find? (fun s => s.name.jsLower == desiredName.jsTrim.jsLower) with
  | some s =>
    exact ⟨s, List.mem_of_find?_eq_some hexact,
      by simp only [pickSessionIdByName, hne', Bool.false_eq_true, if_false, hexact]⟩
  | none =>
    cases hfuzzy : sessions.find?
        (fun s => strIncludes s.name.jsLower desiredName.jsTrim.jsLower) with
    | some s =>
      exact ⟨s, List.mem_of_find?_eq_some hfuzzy,
        by simp only [pickSessionIdByName, hne', Bool.false_eq_true, if_false,
          hexact, hfuzzy]⟩
    | none =>
      cases halias : sessionAliases.foldl
          (aliasStep sessions desiredName.jsTrim.jsLower) none with
      | some r =>
        rcases aliasFold_mem sessions _ _ _ _ halias with hc | ⟨s, hs, hr⟩
        · exact absurd hc (by simp)
        · refine ⟨s, hs, ?_⟩
          simp only [pickSessionIdByName, hne', Bool.false_eq_true, if_false,
            hexact, hfuzzy, halias, hr]
      | none =>
        cases sessions with
        | nil => exact absurd rfl hne
        | cons s0 rest =>
          refine ⟨s0, List.mem_cons_self s0 rest, ?_⟩
          simp only [pickSessionIdByName, hne', Bool.false_eq_true, if_false,
            hexact, hfuzzy, halias, List.head?, Option.map]

/-- Concrete session list for the C10 witness. -/
def c10Sessions : List Session :=
  [{ id := "id1", name := "Training Server" }, { id := "id2", name := "Expert Server" }]

theorem pickSessionIdByName_total_witness :
    pickSessionIdByName [] "expert" = none ∧
    ∃ s ∈ c10Sessions, pickSessionIdByName c10Sessions "expert" = some s.id :=
  pickSessionIdByName_total c10Sessions "expert" (by decide) (by decide)

/-! ### C7: the delay operation -/

/-- A tracker whose next poll sits an hour in the future (a backoff
schedule the poll loop produces for long-unseen pilots). -/
def c7BackoffTracker : Tracker :=
  { id := "c7"
    username := "bob"
    server := "Expert Server"
    callbackUrl := none
    status := .searching
    startedAt := 0
    lastPolledAt := 0
    lastSeenAt := 0
    attempts := 3
    flight := none
    lastKnownFlight := none
    timeoutAt := SEARCH_TIMEOUT_MS
    nextPollAt := 3600000
    history := [{ event := .created, timestamp := 0 }] }

/-- C7 counterexample: delaying a tracker whose `nextPollAt` lies more
than five minutes ahead moves the next poll EARLIER, refuting "the new
`nextPollAt` is strictly later than the old one". -/
theorem delay_not_always_later :
    (delayTracker 0 c7BackoffTracker).nextPollAt < c7BackoffTracker.nextPollAt ∧
    ¬ c7BackoffTracker.nextPollAt < (delayTracker 0 c7BackoffTracker).nextPollAt := by
  decide

/-- C7 (amended): `delay` sets `nextPollAt` to the operation time plus
the fixed five-minute duration - strictly later than the old value
whenever the tracker was due (`nextPollAt ≤ now`), though possibly
earlier when the old value lay further in the future - leaves the status
unchanged, appends one `delayed_by_test` event, and changes no field
other than `nextPollAt` and `history`. -/
theorem delay_fixed_duration (now : Int) (t : Tracker) :
    (delayTracker now t).nextPollAt = now + DELAY_MS ∧
    (delayTracker now t).status = t.status ∧
    (delayTracker now t).id = t.id ∧
    (delayTracker now t).username = t.username ∧
    (delayTracker now t).server = t.server ∧
    (delayTracker now t).callbackUrl = t.callbackUrl ∧
    (delayTracker now t).startedAt = t.startedAt ∧
    (delayTracker now t).lastPolledAt = t.lastPolledAt ∧
    (delayTracker now t).lastSeenAt = t.lastSeenAt ∧
    (delayTracker now t).attempts = t.attempts ∧
    (delayTracker now t).flight = t.flight ∧
    (delayTracker now t).lastKnownFlight = t.lastKnownFlight ∧
    (delayTracker now t).timeoutAt = t.timeoutAt ∧
    (delayTracker now t).history
      = t.history ++ [{ event := .delayedByTest, timestamp := now }] ∧
    (t.nextPollAt ≤ now → t.nextPollAt < (delayTracker now t).nextPollAt) := by
  refine ⟨rfl, rfl, rfl, rfl, rfl, rfl, rfl, rfl, rfl, rfl, rfl, rfl, rfl, rfl, ?_⟩
  intro h
  have : (0:Int) < DELAY_MS := by decide
  simp only [delayTracker]
  omega

/-- A due tracker for the C7 witness. -/
def c7DueTracker : Tracker :=
  { c7BackoffTracker with id := "c7w", nextPollAt := 5 }

theorem delay_fixed_duration_witness :
    (delayTracker 10 c7DueTracker).nextPollAt = 10 + DELAY_MS ∧
    (delayTracker 10 c7DueTracker).status = c7DueTracker.status ∧
    c7DueTracker.nextPollAt < (delayTracker 10 c7DueTracker).nextPollAt :=
  ⟨(delay_fixed_duration 10 c7DueTracker).1,
   (delay_fixed_duration 10 c7DueTracker).2.1,
   (delay_fixed_duration 10 c7DueTracker).2.2.2.2.2.2.2.2.2.2.2.2.2.2 (by decide)⟩

/-! ### C4: idempotent start -/

theorem isTerminal_iff_not_active (s : TrackStatus) :
    s.isTerminal = true ↔ ¬(s = .searching ∨ s = .tracking) := by
  cases s <;> simp [TrackStatus.isTerminal]

/-- C4: processing one start item whose trimmed username is non-empty
either (a) finds a non-terminal tracker for the same case-insensitive
(username, server) pair, returns it, leaves the registry unchanged and
fires nothing, or (b), when every registered tracker for that pair is
terminal, appends a fresh tracker in `searching` state with
`nextPollAt` equal to the creation time and `timeoutAt` equal to
creation time plus the search timeout, returning it and firing one
creation acknowledgment. -/
theorem addTrackerItem_dedup_or_fresh (now : Int) (idv : String)
    (reg : List Tracker) (uRaw sRaw cRaw : Option String)
    (hu : (uRaw.getD "").jsTrim ≠ "") :
    (∀ ex,
       findExistingActive reg ((uRaw.getD "").jsTrim)
         ((jsOrDefault sRaw DEFAULT_IF_SERVER).jsTrim) = some ex →
       addTrackerItem now idv reg uRaw sRaw cRaw = ⟨reg, some ex, []⟩ ∧
       ex ∈ reg ∧ (ex.status = .searching ∨ ex.status = .tracking) ∧
       ex.username.jsLower = ((uRaw.getD "").jsTrim).jsLower ∧
       ex.server.jsLower = ((jsOrDefault sRaw DEFAULT_IF_SERVER).jsTrim).jsLower) ∧
    ((∀ ex ∈ reg,
        ex.username.jsLower = ((uRaw.getD "").jsTrim).jsLower →
        ex.server.jsLower = ((jsOrDefault sRaw DEFAULT_IF_SERVER).jsTrim).jsLower →
        ex.status.isTerminal = true) →
      ∃ t, addTrackerItem now idv reg uRaw sRaw cRaw = ⟨reg ++ [t], some t, [.created]⟩ ∧
        t.status = .searching ∧ t.nextPollAt = now ∧ t.startedAt = now ∧
        t.timeoutAt = now + SEARCH_TIMEOUT_MS ∧
        t.username = (uRaw.getD "").jsTrim ∧
        t.server = (jsOrDefault sRaw DEFAULT_IF_SERVER).jsTrim) := by
  constructor
  · intro ex hex
    have hp := List.find?_some hex
    have hmem := List.mem_of_find?_eq_some hex
    simp only [Bool.and_eq_true, beq_iff_eq, Bool.or_eq_true] at hp
    refine ⟨?_, hmem, hp.2, hp.1.1, hp.1.2⟩
    unfold addTrackerItem
    rw [if_neg hu, hex]
  · intro hall
    have hnone : findExistingActive reg ((uRaw.getD "").jsTrim)
        ((jsOrDefault sRaw DEFAULT_IF_SERVER).jsTrim) = none := by
      rw [findExistingActive, List.find?_eq_none]
      intro ex hmem
      simp only [Bool.and_eq_true, beq_iff_eq, Bool.or_eq_true, not_and, not_or]
      intro hns
      have := (isTerminal_iff_not_active ex.status).mp (hall ex hmem hns.1 hns.2)
      push_neg at this
      exact this
    refine ⟨mkNewTracker now idv ((uRaw.getD "").jsTrim)
      ((jsOrDefault sRaw DEFAULT_IF_SERVER).jsTrim) (resolvedCallback cRaw), ?_,
      rfl, rfl, rfl, rfl, rfl, rfl⟩
    unfold addTrackerItem
    rw [if_neg hu, hnone]

/-- An existing active tracker for the C4 witness (upper-case username,
to exercise the case-insensitive comparison). -/
def c4Existing : Tracker := mkNewTracker 50 "ex1" "ALICE" "Expert Server" none

def c4Reg : List Tracker := [c4Existing]

/-- The same tracker after it reached a terminal state. -/
def c4Terminated : Tracker := { c4Existing with status := .landed }

def c4TermReg : List Tracker := [c4Terminated]

theorem addTrackerItem_dedup_or_fresh_witness :
    addTrackerItem 100 "new1" c4Reg (some "alice") (some "Expert Server") none
      = ⟨c4Reg, some c4Existing, []⟩ ∧
    (∃ t, addTrackerItem 100 "new2" c4TermReg (some "alice") (some "Expert Server") none
      = ⟨c4TermReg ++ [t], some t, [.created]⟩ ∧ t.status = .searching ∧
      t.nextPollAt = 100 ∧ t.timeoutAt = 100 + SEARCH_TIMEOUT_MS) := by
  constructor
  · exact ((addTrackerItem_dedup_or_fresh 100 "new1" c4Reg (some "alice")
      (some "Expert Server") none (by decide)).1 c4Existing (by decide)).1
  · obtain ⟨t, h1, h2, h3, _, h5, _, _⟩ :=
      (addTrackerItem_dedup_or_fresh 100 "new2" c4TermReg (some "alice")
        (some "Expert Server") none (by decide)).2 (by decide)
    exact ⟨t, h1, h2, h3, h5⟩

/-! ### Poll-step helper lemmas -/

/-- Number of `online` events in a history. -/
def onlineCount (h : List HistoryEvent) : Nat :=
  (h.filter (fun e => e.event == .online)).length

theorem onlineCount_append_online (h : List HistoryEvent) (ts : Int) :
    onlineCount (h ++ [{ event := .online, timestamp := ts }]) = onlineCount h + 1 := by
  simp [onlineCount]

theorem onlineCount_append_other (h : List HistoryEvent) (e : HistoryEvent)
    (hne : e.event ≠ .online) :
    onlineCount (h ++ [e]) = onlineCount h := by
  have he : (e.event == EventKind.online) = false := by simpa using hne
  simp [onlineCount, List.filter_append, List.filter, he]

/-- The `attempts`/`lastPolledAt` stamping at the top of the per-tracker
loop body does not affect match resolution. -/
theorem resolveMatch_stamp (now : Int) (t : Tracker) (flights : List Flight) :
    resolveMatch { t with attempts := t.attempts + 1, lastPolledAt := now } flights
      = resolveMatch t flights := rfl

/-- Nor does it affect the landing determination. -/
theorem landingCheck_stamp (now : Int) (env : PollEnv) (t : Tracker) :
    landingCheck env { t with attempts := t.attempts + 1, lastPolledAt := now }
      = landingCheck env t := rfl

/-- Appending the `landed` event does not change which `online` event is
most recent, hence not the computed flight duration. -/
theorem landedDuration_append_landed (now ts : Int) (h : List HistoryEvent)
    (icao : Option String) :
    landedDuration now (h ++ [{ event := .landed, timestamp := ts, airport := icao }])
      = landedDuration now h := by
  simp [landedDuration, List.find?]

/-- On a successful match, the poll step appends an `online` event
exactly when the tracker was not already `tracking` that same flight
id. -/
theorem pollTracker_onlineCount_match (now : Int) (env : PollEnv) (t : Tracker)
    (m : Flight) (hm : resolveMatch t env.flights = some m) :
    onlineCount (pollTracker now env t).1.history
      = onlineCount t.history +
        (if (t.status == .tracking &&
             jsSameFlightId t.lastKnownFlight (simplifyFlight m).flightId) then 0 else 1) := by
  simp only [pollTracker, resolveMatch_stamp, hm]
  by_cases hc : (t.status == .tracking &&
      jsSameFlightId t.lastKnownFlight (simplifyFlight m).flightId) = true
  · simp [hc]
  · simp only [Bool.not_eq_true] at hc
    simp [hc, onlineCount_append_online]

/-- On a successful match, the poll step always ends `tracking` and
locks the remembered flight identity onto the matched flight. -/
theorem pollTracker_match_locks (now : Int) (env : PollEnv) (t : Tracker)
    (m : Flight) (hm : resolveMatch t env.flights = some m) :
    (pollTracker now env t).1.status = .tracking ∧
    (pollTracker now env t).1.lastKnownFlight
      = some ⟨(simplifyFlight m).flightId, env.sessionId⟩ := by
  simp only [pollTracker, resolveMatch_stamp, hm]
  by_cases hc : (t.status == .tracking &&
      jsSameFlightId t.lastKnownFlight (simplifyFlight m).flightId) = true
  · simp [hc]
  · simp only [Bool.not_eq_true] at hc
    simp [hc]

/-- C1: a poll that matches a live flight appends an `online` history
event if and only if the tracker was not already `tracking` with the
same flight identifier; afterwards the tracker is `tracking` that
identifier, so a subsequent matching poll with the same identifier
appends no further `online` event, while a match with a different
identifier (pilot re-logged) appends exactly one more. -/
theorem pollTracker_online_iff (now : Int) (env : PollEnv) (t : Tracker) (m : Flight)
    (hm : resolveMatch t env.flights = some m) :
    (onlineCount (pollTracker now env t).1.history
      = onlineCount t.history +
        (if (t.status == .tracking &&
             jsSameFlightId t.lastKnownFlight (simplifyFlight m).flightId) then 0 else 1)) ∧
    (pollTracker now env t).1.status = .tracking ∧
    (pollTracker now env t).1.lastKnownFlight
      = some ⟨(simplifyFlight m).flightId, env.sessionId⟩ ∧
    (∀ (now2 : Int) (env2 : PollEnv) (m2 : Flight),
      resolveMatch (pollTracker now env t).1 env2.flights = some m2 →
      ((simplifyFlight m2).flightId = (simplifyFlight m).flightId →
        onlineCount (pollTracker now2 env2 (pollTracker now env t).1).1.history
          = onlineCount (pollTracker now env t).1.history) ∧
      ((simplifyFlight m2).flightId ≠ (simplifyFlight m).flightId →
        onlineCount (pollTracker now2 env2 (pollTracker now env t).1).1.history
          = onlineCount (pollTracker now env t).1.history + 1)) := by
  obtain ⟨hstat, hlock⟩ := pollTracker_match_locks now env t m hm
  refine ⟨pollTracker_onlineCount_match now env t m hm, hstat, hlock, ?_⟩
  intro now2 env2 m2 hm2
  have base := pollTracker_onlineCount_match now2 env2 _ m2 hm2
  constructor
  · intro hsame
    rw [base, hstat, hlock]
    simp [jsSameFlightId, hsame]
  · intro hdiff
    rw [base, hstat, hlock]
    have : ((simplifyFlight m).flightId == (simplifyFlight m2).flightId) = false := by
      simpa using fun h => hdiff h.symm
    simp [jsSameFlightId, this]

/-- The concrete flight matched in the C1 witness. -/
def c1Flight : Flight := { flightId := some "F1", username := some "Alice", pilotState := none }

/-- Poll inputs for the C1 witness. -/
def c1Env : PollEnv :=
  { sessionId := "S1", flights := [c1Flight], routeResult := none,
    airports := [], distFn := fun _ _ _ _ => 0 }

/-- A freshly created tracker for the C1 witness. -/
def c1Tracker : Tracker := mkNewTracker 0 "t1" "alice" "Expert Server" none

theorem pollTracker_online_iff_witness :
    onlineCount (pollTracker 5 c1Env c1Tracker).1.history
      = onlineCount c1Tracker.history + 1 ∧
    (pollTracker 5 c1Env c1Tracker).1.status = .tracking ∧
    (pollTracker 5 c1Env c1Tracker).1.lastKnownFlight
      = some ⟨some "F1", "S1"⟩ := by
  have h := pollTracker_online_iff 5 c1Env c1Tracker c1Flight (by decide)
  refine ⟨?_, h.2.1, ?_⟩
  · rw [h.1]; decide
  · rw [h.2.2.1]; decide

/-! ### C2: the landing determination -/

/-- C2: when a poll finds no live match for a tracker with a remembered
flight identifier whose recorded route is non-empty and a nearest
airport exists, the tracker ends in `landed` state if and only if the
route's last point is below the AGL altitude threshold relative to that
airport's elevation, below the taxi-speed threshold, and within the
proximity distance of that airport; and on classification it appends
exactly one `landed` event annotated with the airport code and fires
exactly one `flight_landed` callback whose duration is the poll time
minus the most recent prior `online` event's timestamp (0 if none). -/
theorem pollTracker_landing_iff (now : Int) (env : PollEnv) (t : Tracker)
    (fid : String) (route : List RoutePoint) (lastPoint : RoutePoint)
    (a : Airport) (dkm : Rat)
    (hnm : resolveMatch t env.flights = none)
    (hfid : lastKnownTruthyFid t = some fid)
    (hroute : env.routeResult = some route)
    (hlast : route.getLast? = some lastPoint)
    (hnear : findNearestAirport env.distFn env.airports lastPoint.lat lastPoint.lon
      = some (a, dkm)) :
    ((pollTracker now env t).1.status = .landed ↔
      (lastPoint.altitude - a.elevation_ft < LANDED_ALTITUDE_AGL_FT ∧
       lastPoint.groundSpeed < LANDED_SPEED_KT ∧ dkm < LANDED_PROXIMITY_KM)) ∧
    ((lastPoint.altitude - a.elevation_ft < LANDED_ALTITUDE_AGL_FT ∧
      lastPoint.groundSpeed < LANDED_SPEED_KT ∧ dkm < LANDED_PROXIMITY_KM) →
      (pollTracker now env t).1.history
        = t.history ++ [{ event := .landed, timestamp := now, airport := some a.icao }] ∧
      (pollTracker now env t).2
        = [.flightLanded (landedDuration now t.history) a.icao dkm lastPoint]) := by
  by_cases hcond : (lastPoint.altitude - a.elevation_ft < LANDED_ALTITUDE_AGL_FT ∧
      lastPoint.groundSpeed < LANDED_SPEED_KT ∧ dkm < LANDED_PROXIMITY_KM)
  · have hlc : landingCheck env t = some (lastPoint, a, dkm) := by
      simp only [landingCheck, hfid, hroute, hlast, hnear, if_pos hcond]
    have hres : (pollTracker now env t).1.history
          = t.history ++ [{ event := .landed, timestamp := now, airport := some a.icao }] ∧
        (pollTracker now env t).1.status = .landed ∧
        (pollTracker now env t).2
          = [.flightLanded (landedDuration now t.history) a.icao dkm lastPoint] := by
      simp [pollTracker, resolveMatch_stamp, hnm, landingCheck_stamp, hlc,
        landedDuration_append_landed]
    exact ⟨⟨fun _ => hcond, fun _ => hres.2.1⟩, fun _ => ⟨hres.1, hres.2.2⟩⟩
  · have hlc : landingCheck env t = none := by
      simp only [landingCheck, hfid, hroute, hlast, hnear, if_neg hcond]
    refine ⟨⟨?_, fun hc => absurd hc hcond⟩, fun hc => absurd hc hcond⟩
    intro habs
    by_cases ht : now ≥ t.timeoutAt
    · simp only [pollTracker, resolveMatch_stamp, hnm, landingCheck_stamp, hlc,
        if_pos ht] at habs
      exact absurd habs (by decide)
    · simp only [pollTracker, resolveMatch_stamp, hnm, landingCheck_stamp, hlc,
        if_neg ht] at habs
      exact absurd habs (by decide)


/-- Airport for the C2 witness (field elevation 100 ft). -/
def c2Airport : Airport :=
  { icao := "KLAX", name := "Los Angeles Intl", lat := 0, lon := 0, elevation_ft := 100 }

/-- Final route point for the C2 witness: 300 ft MSL (200 ft AGL),
15 kt. -/
def c2Point : RoutePoint := { lat := 0, lon := 0, altitude := 300, groundSpeed := 15 }

/-- A tracker that was `tracking` flight F2 and saw it go online at
t=40, for the C2 witness. -/
def c2Tracker : Tracker :=
  { mkNewTracker 0 "t2" "carol" "Expert Server" none with
      status := .tracking
      lastKnownFlight := some ⟨some "F2", "S1"⟩
      lastSeenAt := 40
      history := [{ event := .created, timestamp := 0 },
                  { event := .online, timestamp := 40 }] }

/-- Poll inputs for the C2 witness: no live match, a one-point route,
one airport 2 km away. -/
def c2Env : PollEnv :=
  { sessionId := "S1", flights := [], routeResult := some [c2Point],
    airports := [c2Airport], distFn := fun _ _ _ _ => 2 }

theorem pollTracker_landing_iff_witness :
    (pollTracker 100 c2Env c2Tracker).1.status = .landed ∧
    (pollTracker 100 c2Env c2Tracker).1.history
      = c2Tracker.history ++ [{ event := .landed, timestamp := 100, airport := some "KLAX" }] ∧
    (pollTracker 100 c2Env c2Tracker).2 = [.flightLanded 60 "KLAX" 2 c2Point] := by
  have h := pollTracker_landing_iff 100 c2Env c2Tracker "F2" [c2Point] c2Point c2Airport 2
    (by decide) (by decide) rfl (by decide) (by decide)
  have hcond : c2Point.altitude - c2Airport.elevation_ft < LANDED_ALTITUDE_AGL_FT ∧
      c2Point.groundSpeed < LANDED_SPEED_KT ∧ (2:Rat) < LANDED_PROXIMITY_KM := by
    refine ⟨?_, ?_, ?_⟩ <;>
      norm_num [c2Point, c2Airport, LANDED_ALTITUDE_AGL_FT, LANDED_SPEED_KT,
        LANDED_PROXIMITY_KM]
  obtain ⟨hhist, hcbs⟩ := h.2 hcond
  refine ⟨h.1.mpr hcond, ?_, ?_⟩
  · rw [hhist]; rfl
  · rw [hcbs]
    have hd : landedDuration 100 c2Tracker.history = 60 := by decide
    rw [hd]; rfl

/-! ### C3: timeout vs. landing precedence -/

/-- Airport for the C3 counterexample. -/
def c3AirportE : Airport :=
  { icao := "EGLL", name := "Heathrow", lat := 0, lon := 0, elevation_ft := 0 }

/-- Final route point for the C3 counterexample: 200 ft, 10 kt. -/
def c3Point : RoutePoint := { lat := 0, lon := 0, altitude := 200, groundSpeed := 10 }

/-- A tracker already past its search deadline (`timeoutAt = 50`) whose
remembered flight's route ends low, slow and near an airport. -/
def c3Tracker : Tracker :=
  { mkNewTracker 0 "t3" "erin" "Expert Server" none with
      status := .tracking
      lastKnownFlight := some ⟨some "F3", "S1"⟩
      lastSeenAt := 40
      timeoutAt := 50
      history := [{ event := .created, timestamp := 0 },
                  { event := .online, timestamp := 40 }] }

def c3Env : PollEnv :=
  { sessionId := "S1", flights := [], routeResult := some [c3Point],
    airports := [c3AirportE], distFn := fun _ _ _ _ => 1 }

/-- C3 counterexample: at a poll past the deadline with no live match, a
landed-classified last point sends the tracker to `landed`, not
`not_found`, and no timeout callback fires - the landing determination
runs BEFORE the timeout check, so the timeout is not taken "regardless
of the landing-heuristic outcome". -/
theorem timeout_not_regardless_of_landing :
    (200:Int) ≥ c3Tracker.timeoutAt ∧
    resolveMatch c3Tracker c3Env.flights = none ∧
    (pollTracker 200 c3Env c3Tracker).1.status = .landed ∧
    ¬(pollTracker 200 c3Env c3Tracker).1.status = .notFound ∧
    CallbackEvent.timeout ∉ (pollTracker 200 c3Env c3Tracker).2 := by
  have hnm : resolveMatch c3Tracker c3Env.flights = none := by decide
  have hfid : lastKnownTruthyFid c3Tracker = some "F3" := by decide
  have hcond : c3Point.altitude - c3AirportE.elevation_ft < LANDED_ALTITUDE_AGL_FT ∧
      c3Point.groundSpeed < LANDED_SPEED_KT ∧ (1:Rat) < LANDED_PROXIMITY_KM := by
    refine ⟨?_, ?_, ?_⟩ <;>
      norm_num [c3Point, c3AirportE, LANDED_ALTITUDE_AGL_FT, LANDED_SPEED_KT,
        LANDED_PROXIMITY_KM]
  have hnear : findNearestAirport c3Env.distFn c3Env.airports c3Point.lat c3Point.lon
      = some (c3AirportE, 1) := by decide
  have hlc : landingCheck c3Env c3Tracker = some (c3Point, c3AirportE, 1) := by
    have hr : c3Env.routeResult = some [c3Point] := rfl
    have hl : ([c3Point]).getLast? = some c3Point := rfl
    simp only [landingCheck, hfid, hr, hl, hnear, if_pos hcond]
  have hstat : (pollTracker 200 c3Env c3Tracker).1.status = .landed ∧
      (pollTracker 200 c3Env c3Tracker).2
        = [.flightLanded (landedDuration 200 (c3Tracker.history
            ++ [{ event := .landed, timestamp := 200, airport := some c3AirportE.icao }]))
            c3AirportE.icao 1 c3Point] := by
    simp [pollTracker, resolveMatch_stamp, hnm, landingCheck_stamp, hlc]
  refine ⟨by decide, hnm, hstat.1, by rw [hstat.1]; decide, ?_⟩
  rw [hstat.2]
  decide

/-- C3 (amended): a tracker polled at or past `timeoutAt` that finds no
live match transitions to terminal `not_found` and fires exactly one
timeout callback, provided the landing determination does not classify
its last known flight as landed (the landing check runs first and takes
precedence over the timeout). -/
theorem pollTracker_timeout (now : Int) (env : PollEnv) (t : Tracker)
    (hnm : resolveMatch t env.flights = none)
    (hlc : landingCheck env t = none)
    (ht : now ≥ t.timeoutAt) :
    (pollTracker now env t).1.status = .notFound ∧
    (pollTracker now env t).2 = [.timeout] := by
  simp [pollTracker, resolveMatch_stamp, hnm, landingCheck_stamp, hlc, ht]

/-- A tracker with no remembered flight, past its deadline. -/
def c3wTracker : Tracker :=
  { mkNewTracker 0 "t3w" "dave" "Expert Server" none with timeoutAt := 50 }

def c3wEnv : PollEnv :=
  { sessionId := "S1", flights := [], routeResult := none,
    airports := [], distFn := fun _ _ _ _ => 0 }

theorem pollTracker_timeout_witness :
    (pollTracker 100 c3wEnv c3wTracker).1.status = .notFound ∧
    (pollTracker 100 c3wEnv c3wTracker).2 = [.timeout] :=
  pollTracker_timeout 100 c3wEnv c3wTracker (by decide) (by decide) (by decide)

/-! ### C5: terminal states -/

/-- A tracker that has reached terminal `landed` state. -/
def c5Landed : Tracker :=
  { mkNewTracker 0 "t5" "frank" "Expert Server" none with status := .landed }

/-- C5 counterexample: the stop endpoint sets `status = 'stopped'`
unconditionally, so stopping a tracker that is already terminal
(`landed`) changes its status - the claim that no operation changes a
terminal tracker's state fails for `stop`. -/
theorem stop_changes_terminal_status :
    c5Landed.status.isTerminal = true ∧
    (stopTracker 500 c5Landed).1.status ≠ c5Landed.status := by
  decide

theorem dueForPoll_of_terminal (now : Int) (t : Tracker)
    (h : t.status.isTerminal = true) : dueForPoll now t = false := by
  cases hs : t.status <;> simp_all [TrackStatus.isTerminal, dueForPoll]

/-- C5 (amended): a poll tick leaves every terminal tracker entirely
untouched (terminal trackers are never selected), `addTrackers` only
appends (existing registry entries are never modified), and `delay`
preserves the status; the `stop` operation however sets the status to
`stopped` unconditionally, including for trackers already in a terminal
state. -/
theorem terminal_untouched_except_stop :
    (∀ (now : Int) (envFor : Tracker → Option PollEnv) (reg : List Tracker)
       (i : Nat) (t : Tracker), reg[i]? = some t → t.status.isTerminal = true →
       (pollOnceStep now envFor reg)[i]? = some t) ∧
    (∀ (now : Int) (idv : String) (reg : List Tracker) (uRaw sRaw cRaw : Option String),
       ∃ ext, (addTrackerItem now idv reg uRaw sRaw cRaw).registry = reg ++ ext) ∧
    (∀ (now : Int) (t : Tracker), (delayTracker now t).status = t.status) ∧
    (∀ (now : Int) (t : Tracker), (stopTracker now t).1.status = .stopped) := by
  refine ⟨?_, ?_, fun _ _ => rfl, fun _ _ => rfl⟩
  · intro now envFor reg i t hget hterm
    unfold pollOnceStep
    rw [List.getElem?_map, hget]
    simp [dueForPoll_of_terminal now t hterm]
  · intro now idv reg uRaw sRaw cRaw
    unfold addTrackerItem
    by_cases hu : (uRaw.getD "").jsTrim = ""
    · rw [if_pos hu]; exact ⟨[], by simp⟩
    · rw [if_neg hu]
      cases hf : findExistingActive reg ((uRaw.getD "").jsTrim)
          ((jsOrDefault sRaw DEFAULT_IF_SERVER).jsTrim) with
      | some ex => exact ⟨[], by simp⟩
      | none => exact ⟨_, rfl⟩

/-- A terminal (`not_found`) tracker for the C5 witness. -/
def c5wTracker : Tracker :=
  { mkNewTracker 0 "t5w" "gail" "Expert Server" none with status := .notFound }

theorem terminal_untouched_witness :
    (pollOnceStep 7 (fun _ => none) [c5wTracker])[0]? = some c5wTracker ∧
    (delayTracker 7 c5wTracker).status = c5wTracker.status ∧
    (stopTracker 7 c5wTracker).1.status = .stopped :=
  ⟨terminal_untouched_except_stop.1 7 (fun _ => none) [c5wTracker] 0 c5wTracker rfl (by decide),
   terminal_untouched_except_stop.2.2.1 7 c5wTracker,
   terminal_untouched_except_stop.2.2.2 7 c5wTracker⟩

/-! ### C6: `nextPollAt` never moves backwards under polling -/

/-- Every branch of the poll step either reschedules at `now` plus a
positive interval or leaves `nextPollAt` unchanged, so a due poll never
moves `nextPollAt` backwards. -/
theorem pollTracker_nextPollAt_ge (now : Int) (env : PollEnv) (t : Tracker)
    (hdue : t.nextPollAt ≤ now) :
    t.nextPollAt ≤ (pollTracker now env t).1.nextPollAt := by
  have h30 : (0:Int) < POLL_MS := by decide
  have hbg : (0:Int) < BACKGROUND_POLL_MS := by decide
  cases hm : resolveMatch t env.flights with
  | some m =>
    simp only [pollTracker, resolveMatch_stamp, hm]
    split <;> omega
  | none =>
    cases hlc : landingCheck env t with
    | some v =>
      simp only [pollTracker, resolveMatch_stamp, hm, landingCheck_stamp, hlc]
      exact le_refl _
    | none =>
      simp only [pollTracker, resolveMatch_stamp, hm, landingCheck_stamp, hlc]
      by_cases ht : now ≥ t.timeoutAt
      · rw [if_pos ht]
      · rw [if_neg ht]
        dsimp only
        split <;> omega

/-- C6: the recomputed `nextPollAt` of a due poll is never earlier than
its previous value; and `nextPollAt ≥ startedAt` is an invariant -
established at creation (where they coincide), preserved by every due
poll, preserved by `delay` whenever performed after creation, and
untouched by `stop`. -/
theorem nextPollAt_monotone :
    (∀ (now : Int) (env : PollEnv) (t : Tracker),
      (t.status = .searching ∨ t.status = .tracking) → t.nextPollAt ≤ now →
      t.nextPollAt ≤ (pollTracker now env t).1.nextPollAt) ∧
    (∀ (now : Int) (idv username server : String) (cb : Option String),
      (mkNewTracker now idv username server cb).nextPollAt
        = (mkNewTracker now idv username server cb).startedAt) ∧
    (∀ (now : Int) (env : PollEnv) (t : Tracker),
      t.startedAt ≤ t.nextPollAt → t.nextPollAt ≤ now →
      t.startedAt ≤ (pollTracker now env t).1.nextPollAt) ∧
    (∀ (now : Int) (t : Tracker), t.startedAt ≤ now →
      t.startedAt ≤ (delayTracker now t).nextPollAt) ∧
    (∀ (now : Int) (t : Tracker), (stopTracker now t).1.nextPollAt = t.nextPollAt) := by
  refine ⟨fun now env t _ hdue => pollTracker_nextPollAt_ge now env t hdue,
    fun _ _ _ _ _ => rfl,
    fun now env t hinv hdue => le_trans hinv (pollTracker_nextPollAt_ge now env t hdue),
    fun now t hstart => ?_, fun _ _ => rfl⟩
  have : (0:Int) < DELAY_MS := by decide
  simp only [delayTracker]
  omega

/-- A due `searching` tracker for the C6 witness. -/
def c6Tracker : Tracker :=
  { mkNewTracker 0 "t6" "hana" "Expert Server" none with nextPollAt := 5 }

def c6Env : PollEnv :=
  { sessionId := "S1", flights := [], routeResult := none,
    airports := [], distFn := fun _ _ _ _ => 0 }

theorem nextPollAt_monotone_witness :
    c6Tracker.nextPollAt ≤ (pollTracker 10 c6Env c6Tracker).1.nextPollAt ∧
    (mkNewTracker 3 "w" "uma" "Expert Server" none).nextPollAt
      = (mkNewTracker 3 "w" "uma" "Expert Server" none).startedAt ∧
    c6Tracker.startedAt ≤ (pollTracker 10 c6Env c6Tracker).1.nextPollAt ∧
    c6Tracker.startedAt ≤ (delayTracker 10 c6Tracker).nextPollAt ∧
    (stopTracker 10 c6Tracker).1.nextPollAt = c6Tracker.nextPollAt :=
  ⟨nextPollAt_monotone.1 10 c6Env c6Tracker (Or.inl rfl) (by decide),
   nextPollAt_monotone.2.1 3 "w" "uma" "Expert Server" none,
   nextPollAt_monotone.2.2.1 10 c6Env c6Tracker (by decide) (by decide),
   nextPollAt_monotone.2.2.2.1 10 c6Tracker (by decide),
   nextPollAt_monotone.2.2.2.2 10 c6Tracker⟩

/-! ### C9: backoff for never-seen trackers -/

/-- A never-matched tracker (`lastSeenAt = 0`) created at time 0. -/
def c9Tracker : Tracker := mkNewTracker 0 "t9" "gina" "Expert Server" none

def c9Env : PollEnv :=
  { sessionId := "S1", flights := [], routeResult := none,
    airports := [], distFn := fun _ _ _ _ => 0 }

/-- C9 counterexample: one minute after creation, a matchless poll of a
never-seen tracker schedules the next poll 2 minutes out (120000 ms) -
which is LONGER than the normal poll interval `POLL_MS` (30000 ms), not
shorter as the claim's parenthetical asserts. -/
theorem backoff_two_minutes_not_shorter_than_poll :
    (pollTracker 60000 c9Env c9Tracker).1.nextPollAt = 60000 + 120000 ∧
    ¬((120000:Int) < POLL_MS) := by
  constructor
  · decide
  · decide

/-- C9 (amended): for a tracker that has never matched (`lastSeenAt =
0`), when a poll finds no match and neither the landing nor the timeout
branch applies, the backoff is keyed on the time since CREATION: under
15 minutes the next poll is 2 minutes out (longer than the default
30-second poll interval), under 6 hours it is 15 minutes out, and
otherwise 60 minutes out. -/
theorem pollTracker_backoff_never_seen (now : Int) (env : PollEnv) (t : Tracker)
    (hseen : t.lastSeenAt = 0)
    (hnm : resolveMatch t env.flights = none)
    (hlc : landingCheck env t = none)
    (htime : now < t.timeoutAt) :
    ((now - t.startedAt < 15 * 60 * 1000 →
      (pollTracker now env t).1.nextPollAt = now + 2 * 60 * 1000) ∧
     (15 * 60 * 1000 ≤ now - t.startedAt → now - t.startedAt < 6 * 60 * 60 * 1000 →
      (pollTracker now env t).1.nextPollAt = now + 15 * 60 * 1000) ∧
     (6 * 60 * 60 * 1000 ≤ now - t.startedAt →
      (pollTracker now env t).1.nextPollAt = now + 60 * 60 * 1000)) ∧
    POLL_MS < 2 * 60 * 1000 := by
  have hnotto : ¬ now ≥ t.timeoutAt := by omega
  simp only [pollTracker, resolveMatch_stamp, hnm, landingCheck_stamp, hlc,
    if_neg hnotto]
  rw [hseen]
  refine ⟨⟨?_, ?_, ?_⟩, by decide⟩
  · intro h1
    simp only [beq_self_eq_true, if_true]
    rw [if_pos (by omega : now - t.startedAt < 15 * 60 * 1000)]
  · intro h1 h2
    simp only [beq_self_eq_true, if_true]
    rw [if_neg (by omega : ¬ now - t.startedAt < 15 * 60 * 1000),
      if_pos (by omega : now - t.startedAt < 6 * 60 * 60 * 1000)]
  · intro h1
    simp only [beq_self_eq_true, if_true]
    rw [if_neg (by omega : ¬ now - t.startedAt < 15 * 60 * 1000),
      if_neg (by omega : ¬ now - t.startedAt < 6 * 60 * 60 * 1000)]

/-- A never-seen tracker created at time 0 for the C9 witness. -/
def c9wTracker : Tracker := mkNewTracker 0 "t9w" "ivan" "Expert Server" none

def c9wEnv : PollEnv :=
  { sessionId := "S1", flights := [], routeResult := none,
    airports := [], distFn := fun _ _ _ _ => 0 }

theorem pollTracker_backoff_never_seen_witness :
    (pollTracker 120000 c9wEnv c9wTracker).1.nextPollAt = 120000 + 2 * 60 * 1000 ∧
    POLL_MS < 2 * 60 * 1000 :=
  have h := pollTracker_backoff_never_seen 120000 c9wEnv c9wTracker rfl (by decide)
    rfl (by decide)
  ⟨h.1.1 (by decide), h.2⟩
